import Mathlib

/-!
# Verification of the emp3r0r C2 core against its specification

This file shallowly embeds the parts of the emp3r0r command-and-control
server that the specification's testable claims are about:

* the message tunnel's `processAgentData` (agent command-result envelopes),
* the operator long-poll heartbeat loop in `handleOperatorConn`,
* the command-result polling loops of `StatFile` and `moduleMemDump`,
* the two `SetOption` implementations (package `cc` and package `live`),
* the KCP tunnel configuration `NewConfig` and its key derivation,
* the file-transfer engine's `GetFile`.

Go strings are embedded as `List Char`; Go maps as association lists;
the file system, the random source and the remote agent's answers are
explicit parameters, so that every definition is executable.  External
library calls (SHA-256, PBKDF2) are kept symbolic: the file system model
carries an oracle for file checksums, and the PBKDF2 invocation is
recorded as a call descriptor.
-/

namespace Emp3r0r

/-- Go strings, embedded as lists of characters. -/
abbrev GoStr := List Char

/-- Conversion from Lean string literals to the embedding. -/
def str (s : String) : GoStr := s.data

/-- The build-time separator string `def.MagicString`. -/
def MagicString : GoStr := str "64781530-1475-4cf8-950c-dcdf4c619dbc"

/-- Fuel-indexed worker for Go's `strings.Split` with a non-empty separator.
Each recursive call consumes at least one character of the input, so fuel
equal to the input length is always sufficient; the `0` case is unreachable
under that fuel and merely makes the recursion structural. -/
def goSplitF (sep : GoStr) : Nat → GoStr → List GoStr
  | _, [] => [[]]
  | 0, s => [s]
  | fuel + 1, c :: rest =>
    if sep.isPrefixOf (c :: rest) && !sep.isEmpty then
      [] :: goSplitF sep fuel (rest.drop (sep.length - 1))
    else
      match goSplitF sep fuel rest with
      | [] => [[c]]
      | h :: t => (c :: h) :: t

/-- Go's `strings.Split(s, sep)` for non-empty `sep`: splits `s` around every
non-overlapping occurrence of `sep`, scanning left to right.  Like in Go the
result always has at least one element. -/
def goSplit (sep s : GoStr) : List GoStr :=
  goSplitF sep s.length s

/-- Go's `strings.Join(elems, sep)`. -/
def goJoin (sep : GoStr) : List GoStr → GoStr
  | [] => []
  | [x] => x
  | x :: xs => x ++ sep ++ goJoin sep xs

/-! ## Message tunnel: `processAgentData` (logger.go appendix, package cc)

The Go function splits `data.Payload` on `MagicString`, looks the agent up
by tag, returns early for unknown agents and for ops other than `"cmd"`,
and otherwise reads `payloadSplit[1]` (the command),
`payloadSplit[2:len-1]` joined with `" "` (the output) and
`payloadSplit[len-1]` (the command id), then stores the output in
`CmdResults[cmd_id]`.  In Go, `payloadSplit[1]` panics when the split has
fewer than two fields, and the slice `payloadSplit[2:len-1]` panics when it
has fewer than three; both indexings happen after the `op != "cmd"` early
return and before the store.  The display post-processing that follows the
store (screenshot/ps/ls rendering, logging) never touches `CmdResults`
again, so the outcome below captures the whole effect on the result table. -/

/-- Outcome of one `processAgentData` call.  `stored id out` means
`CmdResults[id] = out` was written; the two dropped outcomes leave the
table untouched; `panicked` is a Go runtime panic (out-of-range index or
slice). -/
inductive AgentDataOutcome where
  | panicked
  | droppedNoTarget
  | droppedUnknownOp
  | stored (cmd_id out : GoStr)
deriving DecidableEq

/-- The message tunnel's `processAgentData`.  `registered` tells whether
the envelope's tag resolves to a live control record (`GetTargetFromTag`
and the `Targets` lookup). -/
def processAgentData (registered : Bool) (payload : GoStr) : AgentDataOutcome :=
  let ps := goSplit MagicString payload
  if !registered then .droppedNoTarget
  else if ps.headD [] ≠ str "cmd" then .droppedUnknownOp
  else if ps.length < 2 then .panicked
  else if ps.length ≤ 2 then .panicked
  else .stored (ps.getLastD []) (goJoin (str " ") ((ps.drop 2).dropLast))

/-! ## Result-table polling loops (`StatFile`, `moduleMemDump`)

Both loops poll `CmdResults[cmd_id]` every 100 ms.  The oracle argument
gives the table lookup's answer at the i-th iteration (`none` = entry not
present yet). -/

/-- The wait loop of `StatFile` (file_transfer.go): `for { sleep(100ms);
if res, exists := CmdResults[cmd_id]; exists { break } }`.  The loop has no
iteration bound and no deadline: its only exit is the arrival of a result.
`statFilePoll oracle fuel i = none` means that after `fuel` further
iterations starting from iteration `i` the loop is still spinning; the Go
loop terminates if and only if some fuel yields `some`. -/
def statFilePoll (oracle : Nat → Option GoStr) : Nat → Nat → Option GoStr
  | 0, _ => none
  | fuel + 1, i =>
    match oracle i with
    | some res => some res
    | none => statFilePoll oracle fuel (i + 1)

/-- The wait loop of `moduleMemDump` (modmemdump.go): `for i := 0; i < 100;
i++ { if res, ok := CmdResults[cmd_id]; ok { cmd_res = res; break };
sleep(100ms) }` — at most 100 polls (10 s), after which `cmd_res` is still
the empty string. -/
def memDumpPollAux (oracle : Nat → Option GoStr) : Nat → Nat → GoStr
  | 0, _ => []
  | fuel + 1, i =>
    match oracle i with
    | some res => res
    | none => memDumpPollAux oracle fuel (i + 1)

/-- The bounded wait of `moduleMemDump`: 100 iterations then give up. -/
def memDumpPoll (oracle : Nat → Option GoStr) : GoStr :=
  memDumpPollAux oracle 100 0

/-- What `moduleMemDump` does with the polled path. -/
inductive MemDumpOutcome where
  | errorReported (msg : GoStr)
  | proceedGetFile (path : GoStr)
deriving DecidableEq

/-- After the wait loop, `moduleMemDump` reports an error on an empty
response and otherwise proceeds to `GetFile`. -/
def moduleMemDumpWait (oracle : Nat → Option GoStr) : MemDumpOutcome :=
  let path := memDumpPoll oracle
  if path = [] then
    .errorReported (str "Failed to get memdump file path: empty response")
  else .proceedGetFile path

/-! ## Module options: the two `SetOption` implementations

The repository contains two implementations of the operator's `set`
command.  Package `cc` (mod.go) runs `CurrentModuleOptions[opt].Val = val`:
a Go map miss yields a nil `*CurrentOption`, and the field write then
dereferences nil, i.e. panics.  Package `live` (the `live` appendix of
file_transfer.go) first checks `optObj, ok := ActiveModule.Options[opt]`
and on `!ok` logs `option %s not found` and returns without touching any
option. -/

/-- A module option record (`CurrentOption` / the `live` option object). -/
structure ModOption where
  name : GoStr
  val : GoStr
  vals : List GoStr
deriving DecidableEq

/-- The option map of the currently selected module, as an association
list. -/
abbrev OptionMap := List (GoStr × ModOption)

/-- Go map lookup on the option map. -/
def lookupOpt : OptionMap → GoStr → Option ModOption
  | [], _ => none
  | (k, v) :: rest, key => if k = key then some v else lookupOpt rest key

/-- Writing through the pointer stored in the map (`optObj.Val = val`)
updates the entry in place. -/
def updateOpt : OptionMap → GoStr → GoStr → OptionMap
  | [], _, _ => []
  | (k, v) :: rest, key, val =>
    if k = key then (k, { v with val := val }) :: rest
    else (k, v) :: updateOpt rest key val

/-- Outcome of a `SetOption` call.  `errorReported` carries the message and
the (unchanged) option map; `panicked` is a Go nil-pointer dereference. -/
inductive SetOptionOutcome where
  | panicked
  | errorReported (msg : GoStr) (options : OptionMap)
  | updated (options : OptionMap)
deriving DecidableEq

/-- Package `cc`'s `SetOption` (mod.go): `CurrentModuleOptions[opt].Val =
val`.  On a missing key the map returns a nil pointer and the `.Val` write
panics. -/
def ccSetOption (options : OptionMap) (opt val : GoStr) : SetOptionOutcome :=
  match lookupOpt options opt with
  | none => .panicked
  | some _ => .updated (updateOpt options opt val)

/-- Package `live`'s `SetOption` (live appendix of file_transfer.go):
checks presence first and reports `option %s not found` (the quoting done
by `strconv.Quote` is elided) leaving every option unchanged. -/
def liveSetOption (options : OptionMap) (opt val : GoStr) : SetOptionOutcome :=
  match lookupOpt options opt with
  | none => .errorReported (str "option " ++ opt ++ str " not found") options
  | some _ => .updated (updateOpt options opt val)

/-! ## Operator heartbeat loop (`handleOperatorConn`, package server)

After accepting the long-lived connection and inserting the session into
`OPERATORS`, the handler runs a select loop with a 1-second ticker
`heartbeatTicker`, a 60-second timer `timeoutTimer` and a channel
`heartbeatCh`.  On every ticker tick it executes

    if !timeoutTimer.Stop() { conn.Close(); cancel(); return } // + delete
    timeoutTimer.Reset(1 * time.Minute)

and on a `heartbeatCh` receive it resets the timer.  `Stop` returns false
exactly when the timer has already fired, i.e. when its deadline is not in
the future.  Note that nothing in the function ever sends on
`heartbeatCh`, and nothing reads heartbeat frames from the connection.
The deferred cleanup (`delete(OPERATORS, session)`, `conn.Close()`) runs
only when the loop returns.  Time is modelled in whole seconds. -/

/-- State of one operator connection's heartbeat loop. -/
structure OperatorConnState where
  now : Nat
  timerDeadline : Nat
  connClosed : Bool
  inOperatorsMap : Bool
deriving DecidableEq

/-- State right after `handleOperatorConn` set up the session: the operator
is in `OPERATORS`, the connection is open, and `timeoutTimer` fires at
t = 60 s. -/
def initOperatorConn : OperatorConnState :=
  { now := 0, timerDeadline := 60, connClosed := false, inOperatorsMap := true }

/-- One `heartbeatTicker` tick (1 s later): if the timeout timer has
already fired (`Stop` returned false), close the connection, cancel the
context and return, which runs the deferred `delete(OPERATORS, ...)`;
otherwise reset the timer to fire 60 s from now. -/
def operatorTick (s : OperatorConnState) : OperatorConnState :=
  if s.connClosed then s
  else
    let now := s.now + 1
    if s.timerDeadline ≤ now then
      { now := now, timerDeadline := s.timerDeadline,
        connClosed := true, inOperatorsMap := false }
    else
      { now := now, timerDeadline := now + 60,
        connClosed := s.connClosed, inOperatorsMap := s.inOperatorsMap }

/-- The `heartbeatCh` branch: reset the timeout timer.  (Dead code in the
source: no goroutine ever sends on `heartbeatCh`.) -/
def operatorHeartbeat (s : OperatorConnState) : OperatorConnState :=
  if s.connClosed then s
  else { s with timerDeadline := s.now + 60 }

/-- Events the select loop can process. -/
inductive OpEvent where
  | tick
  | heartbeat
deriving DecidableEq

/-- Process one select-loop event. -/
def operatorStep (s : OperatorConnState) : OpEvent → OperatorConnState
  | .tick => operatorTick s
  | .heartbeat => operatorHeartbeat s

/-- Run the select loop over a time-ordered event sequence. -/
def runOpEvents (evs : List OpEvent) : OperatorConnState :=
  evs.foldl operatorStep initOperatorConn

/-- The loop invariant: the timer deadline always sits a full 60 s after
the current time, so `Stop` always succeeds. -/
def opInvariant (s : OperatorConnState) : Prop :=
  s.timerDeadline = s.now + 60 ∧ s.connClosed = false ∧ s.inOperatorsMap = true

/-! ## KCP tunnel configuration (`kcptun.go`) -/

/-- The `Config` record of the KCP tunnel (kcptun.go).  Fields default to
the Go zero value of their type. -/
structure KCPConfig where
  localAddr : GoStr := []
  listen : GoStr := []
  target : GoStr := []
  remoteAddr : GoStr := []
  key : GoStr := []
  crypt : GoStr := []
  mode : GoStr := []
  conn : Int := 0
  autoExpire : Int := 0
  scavengeTTL : Int := 0
  mtu : Int := 0
  sndWnd : Int := 0
  rcvWnd : Int := 0
  dataShard : Int := 0
  parityShard : Int := 0
  dscp : Int := 0
  noComp : Bool := false
  ackNodelay : Bool := false
  noDelay : Int := 0
  interval : Int := 0
  resend : Int := 0
  noCongestion : Int := 0
  sockBuf : Int := 0
  smuxVer : Int := 0
  smuxBuf : Int := 0
  streamBuf : Int := 0
  keepAlive : Int := 0
  log : GoStr := []
  snmpLog : GoStr := []
  snmpPeriod : Int := 0
  quiet : Bool := false
  tcp : Bool := false
  pprof : Bool := false
  qpp : Bool := false
  qppCount : Int := 0
  closeWait : Int := 0
deriving DecidableEq

/-- The `switch config.Mode` block at the end of `NewConfig` (kcptun.go
lines 133-142): the performance-profile presets for
`(NoDelay, Interval, Resend, NoCongestion)`. -/
def applyModeSwitch (c : KCPConfig) : KCPConfig :=
  if c.mode = str "normal" then
    { c with noDelay := 0, interval := 40, resend := 2, noCongestion := 1 }
  else if c.mode = str "fast" then
    { c with noDelay := 0, interval := 30, resend := 2, noCongestion := 1 }
  else if c.mode = str "fast2" then
    { c with noDelay := 1, interval := 20, resend := 2, noCongestion := 1 }
  else if c.mode = str "fast3" then
    { c with noDelay := 1, interval := 10, resend := 2, noCongestion := 1 }
  else c

/-- The constructor `NewConfig(remote_addr, target, port, password, salt)`: builds the
client/server configuration.  The `salt` parameter is unused here (it is
consumed later by the key derivation in `KCPTunClient`/`KCPTunServer`).
All other assignments mirror the source, including the hardcoded
`Mode = "fast3"`, after which the mode switch runs. -/
def newConfig (remote_addr target port password salt : GoStr) : KCPConfig :=
  let _ := salt
  let c0 : KCPConfig :=
    { localAddr := str "127.0.0.1:" ++ port
      listen := str ":" ++ port
      remoteAddr := if target = [] then remote_addr else []
      target := if target = [] then [] else target
      key := password
      crypt := str "aes"
      mode := str "fast3"
      qpp := false
      qppCount := 67
      conn := 1
      autoExpire := 0
      scavengeTTL := 600
      mtu := 1350
      sndWnd := 128
      rcvWnd := 512
      dataShard := 10
      parityShard := 3
      dscp := 0
      noComp := false
      noDelay := 0
      interval := 50
      resend := 0
      sockBuf := 4194304
      smuxVer := 1
      smuxBuf := 4194304
      streamBuf := 2097152
      keepAlive := 10
      closeWait := 0
      log := []
      quiet := true
      tcp := false }
  applyModeSwitch c0

/-- The KCP parameter tuple `(NoDelay, Interval, Resend, NoCongestion)`. -/
def kcpTuple (c : KCPConfig) : Int × Int × Int × Int :=
  (c.noDelay, c.interval, c.resend, c.noCongestion)

/-- The specification's preset table (§4.7), stated from the spec's words
for comparison with `applyModeSwitch`. -/
def specKcpPresetTable (mode : GoStr) : Option (Int × Int × Int × Int) :=
  if mode = str "normal" then some (0, 40, 2, 1)
  else if mode = str "fast" then some (0, 30, 2, 1)
  else if mode = str "fast2" then some (1, 20, 2, 1)
  else if mode = str "fast3" then some (1, 10, 2, 1)
  else none

/-- A call to `pbkdf2.Key(password, salt, iterations, keyLen, sha1.New)`,
kept symbolic (the PBKDF2-SHA1 computation itself is an external
library). -/
structure PBKDF2SHA1Call where
  password : GoStr
  salt : GoStr
  iterations : Nat
  keyLen : Nat
deriving DecidableEq

/-- The key derivation performed by both `KCPTunClient` and `KCPTunServer`:
`pass := pbkdf2.Key([]byte(config.Key), []byte(salt), 4096, 32, sha1.New)`. -/
def kcptunDeriveKey (config : KCPConfig) (salt : GoStr) : PBKDF2SHA1Call :=
  { password := config.key, salt := salt, iterations := 4096, keyLen := 32 }

/-! ## File-transfer engine: `GetFile` (file_transfer.go)

`GetFile(file_path, agent)` computes the download paths, creates the write
directory if needed, fails if the lock file exists, stats the remote file,
short-circuits with `(nil, nil)` when the destination already exists with
a matching SHA-256, pre-allocates the destination, computes the resume
offset from the temp file, registers a stream handle whose token is
`RandMD5String() + "-" + fileinfo.Checksum`, and sends
`get --file_path '<p>' --offset <o> --token '<t>'` to the agent.

The file system, the agent's stat answer, the success of `MkdirAll` /
`FileAllocate` / `SendCmd` and the entropy behind `RandMD5String` are
explicit parameters.  SHA-256 of an on-disk file is an oracle carried by
the file-system model. -/

/-- The JSON stat record the agent answers with (`util.FileStat`),
restricted to the fields `GetFile` reads. -/
structure FileStat where
  name : GoStr
  size : Int
  checksum : GoStr
deriving DecidableEq

/-- The server's view of its local file system, with `crypto.SHA256SumFile`
as an oracle. -/
structure FS where
  isFileExist : GoStr → Bool
  isDirExist : GoStr → Bool
  fileSize : GoStr → Int
  sha256 : GoStr → GoStr

/-- The four paths `GenerateGetFilePaths` produces. -/
structure GetFilePaths where
  write_dir : GoStr
  save_to_file : GoStr
  tempname : GoStr
  lock : GoStr
deriving DecidableEq

/-- The path computation `GenerateGetFilePaths(file_path)`.  `filepath.Clean` + `filepath.Dir`
and `util.FileBaseName` are Go standard-library / utility functions outside
the embedded sources; they are abstracted as the parameters `cleanDir`
(`filepath.Dir` of the cleaned path) and `baseName`.  The suffix structure
(`.downloading`, `.lock`) mirrors the source exactly. -/
def generateGetFilePaths (fileGetDir : GoStr) (cleanDir baseName : GoStr → GoStr)
    (file_path : GoStr) : GetFilePaths :=
  let write_dir := fileGetDir ++ cleanDir file_path
  let save_to_file := write_dir ++ str "/" ++ baseName file_path
  { write_dir := write_dir
    save_to_file := save_to_file
    tempname := save_to_file ++ str ".downloading"
    lock := save_to_file ++ str ".lock" }

/-- Hex digits as used by hex-encoded nonces. -/
def hexDigit (i : Fin 16) : Char :=
  (str "0123456789abcdef").getD i.val 'x'

/-- Is `c` a lower-case hex character? -/
def isHexDigitChar (c : Char) : Bool :=
  (str "0123456789abcdef").any (fun d => d == c)

/-- Modelled from the spec: `util.RandMD5String` is called by `GetFile` but
its definition is not among the embedded sources.  The spec fixes the token
format to `<random16hex>-<sha256>` and says "First 16 bytes of the token
are a random hex nonce", so the nonce is 16 hex characters drawn from the
entropy source `seed`. -/
def randMD5String (seed : Nat → Fin 16) : GoStr :=
  (List.range 16).map (fun i => hexDigit (seed i))

/-- The `get --file_path '<p>' --offset <o> --token '<t>'` command sent to
the agent. -/
structure GetCmd where
  file_path : GoStr
  offset : Int
  token : GoStr
deriving DecidableEq

/-- The error cases of `GetFile` (each returns a nil stream handler and a
non-nil error).  `sendFailed` carries the command and token because the
stream handle was already registered in `FTPStreams` when `SendCmd`
failed. -/
inductive GetFileError where
  | mkdirFailed
  | alreadyInProgress (save_to_file : GoStr)
  | statFailed
  | allocateFailed
  | sendFailed (cmd : GetCmd) (token : GoStr)
deriving DecidableEq

/-- Result of a `GetFile` call.  `failed e` is `(nil, err)`;
`alreadyDownloaded` is the `(nil, nil)` short-circuit (checksum matched, no
command sent); `started cmd token` is `(handler, nil)`: the stream handle
with `token` is registered and `cmd` was sent to the agent. -/
inductive GetFileResult where
  | failed (e : GetFileError)
  | alreadyDownloaded
  | started (cmd : GetCmd) (token : GoStr)
deriving DecidableEq

/-- Everything `GetFile` consults besides the target path: the workspace
root `live.FileGetDir`, the abstracted path helpers, the file system, the
agent's stat answer (`none` = `StatFile` returned an error), the outcomes
of `os.MkdirAll`, `util.FileAllocate` and `agents.SendCmd`, and the entropy
for `util.RandMD5String`. -/
structure GetFileEnv where
  fileGetDir : GoStr
  cleanDir : GoStr → GoStr
  baseName : GoStr → GoStr
  fs : FS
  statResult : Option FileStat
  mkdirOk : Bool
  allocateOk : Bool
  sendOk : Bool
  nonceSeed : Nat → Fin 16

/-- The paths a `GetFile env file_path` call works with. -/
def pathsFor (env : GetFileEnv) (file_path : GoStr) : GetFilePaths :=
  generateGetFilePaths env.fileGetDir env.cleanDir env.baseName file_path

/-- The engine's `GetFile(file_path, agent)`, step for step:
1. compute paths; 2. `MkdirAll` when the write dir is missing, aborting on
error; 3. fail when the lock file exists (`"%s is already being
downloaded"`); 4. `StatFile`, aborting on error; 5. if the destination
exists and its SHA-256 equals the agent's checksum, return `(nil, nil)`
(on a mismatch only a warning is logged and the download proceeds);
6. `FileAllocate`, aborting on error; 7. offset := size of the temp file if
it exists, else 0; 8. register the stream handle with token
`RandMD5String() + "-" + checksum`; 9. send the `get` command, returning
`(nil, err)` on failure, else `(handler, nil)`. -/
def getFile (env : GetFileEnv) (file_path : GoStr) : GetFileResult :=
  let p := pathsFor env file_path
  if !env.fs.isDirExist p.write_dir && !env.mkdirOk then .failed .mkdirFailed
  else if env.fs.isFileExist p.lock then .failed (.alreadyInProgress p.save_to_file)
  else
    match env.statResult with
    | none => .failed .statFailed
    | some fi =>
      if env.fs.isFileExist p.save_to_file ∧ env.fs.sha256 p.save_to_file = fi.checksum then
        .alreadyDownloaded
      else if !env.allocateOk then .failed .allocateFailed
      else
        let offset : Int :=
          if env.fs.isFileExist p.tempname then env.fs.fileSize p.tempname else 0
        let token := randMD5String env.nonceSeed ++ str "-" ++ fi.checksum
        let cmd : GetCmd := { file_path := file_path, offset := offset, token := token }
        if !env.sendOk then .failed (.sendFailed cmd token)
        else .started cmd token

/-- Does the call return a non-nil stream handler? -/
def returnsHandler : GetFileResult → Bool
  | .started _ _ => true
  | _ => false

/-- Was the `get` command handed to `SendCmd` during the call? -/
def getCmdIssued : GetFileResult → Bool
  | .started _ _ => true
  | .failed (.sendFailed _ _) => true
  | _ => false

/-- Modelled from the spec: the code that creates `<final>.lock` lives in
the HTTP/2 file-transfer stream handler, which is not among the embedded
sources.  Per the spec, while a GET of `file_path` is in progress the lock
file exists ("presence of lock file forbids a parallel GET of the same
target path") and the write directory exists (created by the first
`GetFile` call).  `beginTransfer` installs that in-progress state on top of
an arbitrary file system. -/
def beginTransfer (env : GetFileEnv) (file_path : GoStr) : GetFileEnv :=
  let p := pathsFor env file_path
  { env with
    fs := { env.fs with
      isFileExist := fun q => if q = p.lock then true else env.fs.isFileExist q
      isDirExist := fun q => if q = p.write_dir then true else env.fs.isDirExist q } }

/-! ## Concrete sample data for witnesses -/

/-- The remote path used by the witness scenarios. -/
def samplePath : GoStr := str "/tmp/x"

/-- A stat answer for `/tmp/x`: 12 bytes, checksum `aabb`. -/
def sampleStat : FileStat := { name := str "x", size := 12, checksum := str "aabb" }

/-- A file system holding a 5-byte partial temp file
`file-get/tmp/x.downloading` and nothing else. -/
def sampleFS : FS :=
  { isFileExist := fun p => p == str "file-get/tmp/x.downloading"
    isDirExist := fun _ => true
    fileSize := fun _ => 5
    sha256 := fun _ => str "cccc" }

/-- A `GetFile` environment in which the transfer goes through: a partial
temp file is present, every side effect succeeds and the entropy source is
all zeroes. -/
def sampleEnv : GetFileEnv :=
  { fileGetDir := str "file-get"
    cleanDir := fun _ => str "/tmp"
    baseName := fun _ => str "x"
    fs := sampleFS
    statResult := some sampleStat
    mkdirOk := true
    allocateOk := true
    sendOk := true
    nonceSeed := fun _ => 0 }

/-- The token `sampleEnv` generates. -/
def sampleToken : GoStr := str "0000000000000000-aabb"

/-- The `get` command `sampleEnv` sends. -/
def sampleGetCmd : GetCmd :=
  { file_path := samplePath, offset := 5, token := sampleToken }

/-- A file system in which the destination `file-get/tmp/x` already exists
and hashes to the agent-reported checksum. -/
def sampleFSDone : FS :=
  { isFileExist := fun p => p == str "file-get/tmp/x"
    isDirExist := fun _ => true
    fileSize := fun _ => 12
    sha256 := fun _ => str "aabb" }

/-- Like `sampleEnv` but with the destination already fully downloaded. -/
def sampleEnvDone : GetFileEnv := { sampleEnv with fs := sampleFSDone }

/-- The command-result envelope of spec scenario S1:
`cmd<MAGIC>echo hi<MAGIC>hi<MAGIC>c1`. -/
def samplePayload : GoStr :=
  str "cmd" ++ MagicString ++ str "echo hi" ++ MagicString ++ str "hi" ++
    MagicString ++ str "c1"

/-! ## Claims -/

/-- Claim C2 (code_bug evidence).  The claim says `processAgentData` never
panics and drops malformed payloads.  In the code, for a registered agent a
payload `"cmd"` with no separator panics at `payloadSplit[1]` (one field),
and `"cmd<MAGIC>x"` panics at the slice `payloadSplit[2:len-1]` (two
fields); only the unknown-op case is dropped without touching the
command-result table. -/
theorem processAgentData_panics_on_malformed_cmd_payload :
    processAgentData true (str "cmd") = .panicked ∧
    processAgentData true (str "cmd" ++ MagicString ++ str "x") = .panicked ∧
    processAgentData true (str "nonsense-op" ++ MagicString ++ str "y") =
      .droppedUnknownOp := by
  refine ⟨by decide, by decide, by decide⟩

/-- Claim C4.  For every well-formed inbound payload
`cmd<MAGIC>command<MAGIC>output<MAGIC>cmd_id` from a registered agent,
`processAgentData` stores exactly the output text in the command-result
table under `cmd_id`. -/
theorem processAgentData_stores_cmd_output (command output cmd_id payload : GoStr)
    (h : goSplit MagicString payload = [str "cmd", command, output, cmd_id]) :
    processAgentData true payload = .stored cmd_id output := by
  unfold processAgentData
  rw [h]
  simp [goJoin, List.getLastD]

/-- Witness for claim C4: on the S1 payload `cmd<MAGIC>echo hi<MAGIC>hi<MAGIC>c1`
the table gets `c1 ↦ hi`, so the result awaited for `c1` is `hi`. -/
theorem processAgentData_stores_cmd_output_witness :
    processAgentData true samplePayload = .stored (str "c1") (str "hi") :=
  processAgentData_stores_cmd_output (str "echo hi") (str "hi") (str "c1")
    samplePayload (by decide)

/-- Claim C5 (code_bug evidence).  The claim says every wait for a command
result terminates with a timeout after the default 10 s.  `moduleMemDump`
indeed gives up after 100 polls (10 s) and reports an error on the empty
response, but `StatFile`'s wait loop has no bound: when no result ever
arrives it is still spinning after any number of iterations, i.e. it never
terminates. -/
theorem statFile_wait_unbounded_memDump_wait_bounded :
    (∀ fuel i, statFilePoll (fun _ => none) fuel i = none) ∧
    moduleMemDumpWait (fun _ => none) =
      .errorReported (str "Failed to get memdump file path: empty response") := by
  constructor
  · intro fuel
    induction fuel with
    | zero => intro i; rfl
    | succ n ih => intro i; simpa [statFilePoll] using ih (i + 1)
  · decide

/-- Claim C6 (code_bug evidence).  The claim says `SetOption` on an option
name absent from the selected module's option map surfaces a descriptive
error, changes nothing and does not panic.  The `live` implementation does
exactly that, but package `cc`'s implementation (mod.go lines 70-74)
dereferences the nil pointer a Go map miss returns, i.e. panics. -/
theorem ccSetOption_panics_on_unknown_option :
    ccSetOption [] (str "no_such_option") (str "x") = .panicked ∧
    liveSetOption [] (str "no_such_option") (str "x") =
      .errorReported (str "option " ++ str "no_such_option" ++ str " not found") [] := by
  refine ⟨rfl, rfl⟩

/-- Invariant of the heartbeat loop: ticks and (hypothetical) heartbeat
receptions both leave the deadline 60 s in the future, the connection open
and the session registered. -/
theorem opInvariant_step (s : OperatorConnState) (e : OpEvent)
    (h : opInvariant s) : opInvariant (operatorStep s e) := by
  obtain ⟨hd, hc, hm⟩ := h
  cases e with
  | tick =>
    simp only [operatorStep, operatorTick, hc, Bool.false_eq_true, if_false]
    rw [hd, if_neg (by omega)]
    exact ⟨rfl, rfl, hm⟩
  | heartbeat =>
    simp only [operatorStep, operatorHeartbeat, hc, Bool.false_eq_true, if_false]
    exact ⟨rfl, rfl, hm⟩

/-- The invariant holds after any event sequence. -/
theorem opInvariant_run (evs : List OpEvent) : opInvariant (runOpEvents evs) := by
  suffices h : ∀ s, opInvariant s → opInvariant (evs.foldl operatorStep s) from
    h initOperatorConn ⟨rfl, rfl, rfl⟩
  induction evs with
  | nil => intro s hs; exact hs
  | cons e rest ih => intro s hs; exact ih _ (opInvariant_step s e hs)

/-- Claim C1 (code_bug evidence).  The claim says an operator that sends no
heartbeat for 60 s is removed from `OPERATORS` and its connection closed.
In the code every 1-second ticker tick resets the 60-second timeout timer
(and `heartbeatCh` has no sender), so whatever the operator does — in
particular if it never sends a heartbeat, i.e. the event list is all
`tick`s — the timeout never fires: the connection stays open and the
session stays in `OPERATORS` forever.  (The claim's second half, that a
client heartbeating faster than 60 s stays connected, holds trivially.) -/
theorem operator_heartbeat_timeout_never_fires (evs : List OpEvent) :
    (runOpEvents evs).connClosed = false ∧
    (runOpEvents evs).inOperatorsMap = true := by
  obtain ⟨-, hc, hm⟩ := opInvariant_run evs
  exact ⟨hc, hm⟩

/-- Claim C9.  The mode switch of `NewConfig` realises the spec's preset table for
all four performance profiles, `NewConfig` itself (whose mode is the
hardcoded `"fast3"`) agrees with the table, and the key both tunnel ends
derive is `PBKDF2-SHA1(password, salt, 4096 iterations, 32 bytes)` where
the password is the pre-shared key threaded through `Config.Key` and the
salt is the caller-supplied magic string. -/
theorem kcp_preset_table_and_key_derivation (c : KCPConfig)
    (remote port password salt : GoStr) :
    kcpTuple (applyModeSwitch { c with mode := str "normal" }) = (0, 40, 2, 1) ∧
    kcpTuple (applyModeSwitch { c with mode := str "fast" }) = (0, 30, 2, 1) ∧
    kcpTuple (applyModeSwitch { c with mode := str "fast2" }) = (1, 20, 2, 1) ∧
    kcpTuple (applyModeSwitch { c with mode := str "fast3" }) = (1, 10, 2, 1) ∧
    specKcpPresetTable (newConfig remote [] port password salt).mode =
      some (kcpTuple (newConfig remote [] port password salt)) ∧
    kcptunDeriveKey (newConfig remote [] port password salt) salt =
      { password := password, salt := salt, iterations := 4096, keyLen := 32 } := by
  exact ⟨rfl, rfl, rfl, rfl, rfl, rfl⟩

/-- Shape of the order `GetFile` sends: whenever the call registers a
stream handle (it then either sends successfully or fails in `SendCmd`),
the agent's stat answer was `some fi`, the command carries the target path,
the resume offset and the token, and the token is the random nonce, a dash
and the expected checksum. -/
theorem getFileStartShape (env : GetFileEnv) (fp : GoStr) (cmd : GetCmd) (token : GoStr)
    (h : getFile env fp = .started cmd token ∨
      getFile env fp = .failed (.sendFailed cmd token)) :
    ∃ fi, env.statResult = some fi ∧
      cmd = { file_path := fp,
              offset := if env.fs.isFileExist (pathsFor env fp).tempname then
                  env.fs.fileSize (pathsFor env fp).tempname else 0,
              token := randMD5String env.nonceSeed ++ str "-" ++ fi.checksum } ∧
      token = randMD5String env.nonceSeed ++ str "-" ++ fi.checksum := by
  rcases h with h | h <;>
  · simp only [getFile] at h
    split at h
    · cases h
    · split at h
      · cases h
      · split at h
        · cases h
        · rename_i fi hstat
          split at h
          · cases h
          · split at h
            · cases h
            · split at h <;> cases h
              exact ⟨fi, hstat, rfl, rfl⟩

/-- Claim C7.  Whenever `GetFile` reaches the transfer stage (a `get` command
is built and handed to `SendCmd`), the offset in that command is the
current size of `<final>.downloading` if that temp file exists, and 0
otherwise — so a restart on a partial temp file resumes from the right
position. -/
theorem getFile_resume_offset (env : GetFileEnv) (fp : GoStr) (cmd : GetCmd)
    (token : GoStr)
    (h : getFile env fp = .started cmd token ∨
      getFile env fp = .failed (.sendFailed cmd token)) :
    cmd.offset =
      (if env.fs.isFileExist (pathsFor env fp).tempname then
        env.fs.fileSize (pathsFor env fp).tempname else 0) ∧
    cmd.file_path = fp := by
  obtain ⟨fi, -, hcmd, -⟩ := getFileStartShape env fp cmd token h
  rw [hcmd]
  exact ⟨rfl, rfl⟩

/-- Witness for claim C7: in `sampleEnv` the 5-byte partial temp file exists, and
the `get` command indeed carries offset 5. -/
theorem getFile_resume_offset_witness :
    getFile sampleEnv samplePath = .started sampleGetCmd sampleToken ∧
    sampleGetCmd.offset =
      (if sampleEnv.fs.isFileExist (pathsFor sampleEnv samplePath).tempname then
        sampleEnv.fs.fileSize (pathsFor sampleEnv samplePath).tempname else 0) ∧
    sampleGetCmd.file_path = samplePath :=
  ⟨by decide, getFile_resume_offset sampleEnv samplePath sampleGetCmd sampleToken
    (Or.inl (by decide))⟩

/-- Every character `hexDigit` can produce is a hex digit. -/
theorem hexDigit_hex : ∀ i : Fin 16, isHexDigitChar (hexDigit i) = true := by decide

/-- The modelled nonce has exactly 16 characters. -/
theorem randMD5String_length (seed : Nat → Fin 16) :
    (randMD5String seed).length = 16 := by
  simp [randMD5String]

/-- The modelled nonce consists of hex characters only. -/
theorem randMD5String_all_hex (seed : Nat → Fin 16) :
    (randMD5String seed).all isHexDigitChar = true := by
  simp only [randMD5String, List.all_eq_true]
  intro c hc
  obtain ⟨i, -, rfl⟩ := List.mem_map.mp hc
  exact hexDigit_hex (seed i)

/-- Claim C8.  Whenever `GetFile` registers a stream handle, the token is a
16-hex-character random nonce, then `-`, then the checksum the agent's stat
reported (the expected SHA-256, hex-encoded). -/
theorem getFile_token_format (env : GetFileEnv) (fp : GoStr) (fi : FileStat)
    (cmd : GetCmd) (token : GoStr)
    (hstat : env.statResult = some fi)
    (h : getFile env fp = .started cmd token ∨
      getFile env fp = .failed (.sendFailed cmd token)) :
    token = randMD5String env.nonceSeed ++ str "-" ++ fi.checksum ∧
    (randMD5String env.nonceSeed).length = 16 ∧
    (randMD5String env.nonceSeed).all isHexDigitChar = true := by
  obtain ⟨fi2, hstat2, -, htok⟩ := getFileStartShape env fp cmd token h
  rw [hstat] at hstat2
  injection hstat2 with e
  subst e
  exact ⟨htok, randMD5String_length _, randMD5String_all_hex _⟩

/-- Witness for claim C8: `sampleEnv` produces the token
`0000000000000000-aabb`: 16 hex characters, a dash, the expected
checksum. -/
theorem getFile_token_format_witness :
    sampleToken = randMD5String sampleEnv.nonceSeed ++ str "-" ++ sampleStat.checksum ∧
    (randMD5String sampleEnv.nonceSeed).length = 16 ∧
    (randMD5String sampleEnv.nonceSeed).all isHexDigitChar = true :=
  getFile_token_format sampleEnv samplePath sampleStat sampleGetCmd sampleToken rfl
    (Or.inl (by decide))

/-- Both claim-C3 conjuncts go through this fact: with the write directory
present and the lock file present, `GetFile` fails with the
already-being-downloaded error. -/
theorem getFile_fails_when_locked (env : GetFileEnv) (fp : GoStr)
    (hdir : env.fs.isDirExist (pathsFor env fp).write_dir = true)
    (hlock : env.fs.isFileExist (pathsFor env fp).lock = true) :
    getFile env fp = .failed (.alreadyInProgress (pathsFor env fp).save_to_file) := by
  simp only [getFile, hdir, hlock, Bool.not_true, Bool.false_and,
    Bool.false_eq_true, if_false, if_true]

/-- Claim C3.  At most one `GetFile` per path begins a transfer: (i) whenever
the lock file `<final>.lock` exists (the write directory being present, as
it always is when the lock inside it exists), `GetFile` fails with the
already-being-downloaded error; (ii) while a GET of the path is in progress
the lock file exists (`beginTransfer`, modelled from the spec), so a second
`GetFile` of the same path fails with that error. -/
theorem getFile_lock_exclusivity :
    (∀ (env : GetFileEnv) (fp : GoStr),
      env.fs.isDirExist (pathsFor env fp).write_dir = true →
      env.fs.isFileExist (pathsFor env fp).lock = true →
      getFile env fp = .failed (.alreadyInProgress (pathsFor env fp).save_to_file)) ∧
    (∀ (env : GetFileEnv) (fp : GoStr),
      getFile (beginTransfer env fp) fp =
        .failed (.alreadyInProgress (pathsFor env fp).save_to_file)) := by
  constructor
  · exact fun env fp hdir hlock => getFile_fails_when_locked env fp hdir hlock
  · intro env fp
    apply getFile_fails_when_locked
    · show (if (pathsFor env fp).write_dir = (pathsFor env fp).write_dir then true
        else env.fs.isDirExist (pathsFor env fp).write_dir) = true
      rw [if_pos rfl]
    · show (if (pathsFor env fp).lock = (pathsFor env fp).lock then true
        else env.fs.isFileExist (pathsFor env fp).lock) = true
      rw [if_pos rfl]

/-- Witness for claim C3: with a transfer of `/tmp/x` in progress, the second
`GetFile` of `/tmp/x` fails with the already-being-downloaded error. -/
theorem getFile_lock_exclusivity_witness :
    getFile (beginTransfer sampleEnv samplePath) samplePath =
      .failed (.alreadyInProgress (pathsFor (beginTransfer sampleEnv samplePath)
        samplePath).save_to_file) :=
  getFile_lock_exclusivity.1 (beginTransfer sampleEnv samplePath) samplePath
    (by decide) (by decide)

/-- Claim C10.  When the destination file already exists and its SHA-256
matches the agent-reported checksum, `GetFile` short-circuits to the
`(nil, nil)` return: no error, no stream handler, no `get` command sent.
And in general a non-nil stream handler comes back only from a call that
handed the `get` command to `SendCmd`. -/
theorem getFile_nil_nil_on_checksum_match (env : GetFileEnv) (fp : GoStr)
    (fi : FileStat) (env2 : GetFileEnv) (fp2 : GoStr)
    (hstat : env.statResult = some fi)
    (hdir : (env.fs.isDirExist (pathsFor env fp).write_dir || env.mkdirOk) = true)
    (hlock : env.fs.isFileExist (pathsFor env fp).lock = false)
    (hexist : env.fs.isFileExist (pathsFor env fp).save_to_file = true)
    (hsum : env.fs.sha256 (pathsFor env fp).save_to_file = fi.checksum) :
    getFile env fp = .alreadyDownloaded ∧
    getCmdIssued (getFile env fp) = false ∧
    (returnsHandler (getFile env2 fp2) && !getCmdIssued (getFile env2 fp2)) = false := by
  have h1 : (!env.fs.isDirExist (pathsFor env fp).write_dir && !env.mkdirOk) = false := by
    cases hd : env.fs.isDirExist (pathsFor env fp).write_dir <;>
      cases hk : env.mkdirOk <;> simp_all
  have hmain : getFile env fp = .alreadyDownloaded := by
    simp only [getFile, h1, Bool.false_eq_true, if_false, hlock, hstat]
    rw [if_pos ⟨hexist, hsum⟩]
  refine ⟨hmain, by rw [hmain]; rfl, ?_⟩
  cases hr : getFile env2 fp2 with
  | failed e => cases e <;> rfl
  | alreadyDownloaded => rfl
  | started cmd token => rfl

/-- Witness for claim C10: in `sampleEnvDone` the destination exists with the
matching checksum and `GetFile` returns the `(nil, nil)` short-circuit,
while the `sampleEnv` call shows a handler is only returned with a
dispatched command. -/
theorem getFile_nil_nil_on_checksum_match_witness :
    getFile sampleEnvDone samplePath = .alreadyDownloaded ∧
    getCmdIssued (getFile sampleEnvDone samplePath) = false ∧
    (returnsHandler (getFile sampleEnv samplePath) &&
      !getCmdIssued (getFile sampleEnv samplePath)) = false :=
  getFile_nil_nil_on_checksum_match sampleEnvDone samplePath sampleStat sampleEnv
    samplePath rfl (by decide) (by decide) (by decide) (by decide)

end Emp3r0r

